import Mathlib

/-!
Verification of the channel core in `src/util/channel.c` (two-way
thread-safe channels between a master and a worker thread).

All machine integers of the source are modelled explicitly:
`fr_time_t` and the sequence/ack counters are `uint64_t` in the source
(`src/util/time.h`), modelled as `Nat`; uint64 subtraction, which may
wrap, is modelled by `u64sub` with an explicit `% 2^64`; the additions
`sequence + 1` and the diagnostic `size_t` counters are modelled
without the mod, which is exact as long as fewer than `2^64` messages
or signals pass through the channel (a single increment per call from
a value below `2^64 - 1` cannot wrap).  `num_outstanding` is a C `int`
and is modelled as `Int` (its decrements may drive it negative in the
source when the debug assertions are compiled out, and the model keeps
that behaviour).  The debug-only `rad_assert` statements are no-ops in
release builds and are therefore not part of the model; the
preconditions they express appear as hypotheses of the theorems.

The atomic queue (`fr_atomic_queue_push` / `fr_atomic_queue_pop`) and
the control plane (`fr_control_message_send` / `fr_control_message_pop`)
live in `src/util/atomic_queue.c` and `src/util/control.c`, which are
not part of the sources under verification; they are modelled from the
spec's external-interface contract (bounded FIFO queue whose push fails
exactly when the queue is full; framed control-record transport over
such a queue).
-/

set_option autoImplicit false

namespace FrChannel

/-- `2^64`, the modulus of `uint64_t` arithmetic. -/
def U64 : Nat := 2 ^ 64

/-- uint64 subtraction `a - b` with wraparound, for `a < 2^64`. -/
def u64sub (a b : Nat) : Nat := (a + (U64 - b % U64)) % U64

/-- The minimum interval between worker signals (`SIGNAL_INTERVAL`, 1ms in ns). -/
def SIGNAL_INTERVAL : Nat := 1000000

/-- Size of the atomic queues (`ATOMIC_QUEUE_SIZE`). -/
def ATOMIC_QUEUE_SIZE : Nat := 1024

/-- Inverse alpha of the exponential moving average (`IALPHA`). -/
def IALPHA : Nat := 8

/-- The `RTT(_old, _new)` macro: `(_old + ((IALPHA - 1) * _new)) / IALPHA`
in uint64 arithmetic (both arguments are `fr_time_t` values below `2^64`). -/
def RTT (o n : Nat) : Nat := ((o + (IALPHA - 1) * n) % U64) / IALPHA

/-- Modelled from the spec: the bounded lock-free queue of
`src/util/atomic_queue.c` (not under the verified sources), per the
external-interface contract of the spec: a FIFO of fixed capacity whose
push fails exactly when the queue is full. -/
structure fr_atomic_queue_t (α : Type) where
  capacity : Nat
  items : List α
deriving DecidableEq, Repr

/-- Modelled from the spec: `fr_atomic_queue_push`; `none` models the
`false` return of the C function (queue full), `some` the mutated queue. -/
def fr_atomic_queue_push {α : Type} (q : fr_atomic_queue_t α) (x : α) :
    Option (fr_atomic_queue_t α) :=
  if q.items.length < q.capacity then some { q with items := q.items ++ [x] } else none

/-- Modelled from the spec: `fr_atomic_queue_pop`; `none` models the
`false` return of the C function (queue empty). -/
def fr_atomic_queue_pop {α : Type} (q : fr_atomic_queue_t α) :
    Option (α × fr_atomic_queue_t α) :=
  match q.items with
  | [] => none
  | x :: rest => some (x, { q with items := rest })

/-- `fr_channel_signal_t`: the signals carried by control records. -/
inductive fr_channel_signal_t where
  | error
  | dataToWorker
  | dataFromWorker
  | openSig
  | closeSig
  | dataDoneWorker
  | workerSleeping
deriving DecidableEq, Repr

/-- `fr_channel_event_t` (from the channel header, modelled from the
spec's event enumeration; the first five constructors correspond
numerically to the first five signals). -/
inductive fr_channel_event_t where
  | error
  | dataReadyWorker
  | dataReadyReceiver
  | openEv
  | closeEv
  | noop
  | empty
deriving DecidableEq, Repr

/-- `fr_channel_control_t`: the control record `{signal, ack, ch}`.  The
model describes a single channel, so the `ch` pointer is omitted. -/
structure fr_channel_control_t where
  signal : fr_channel_signal_t
  ack : Nat
deriving DecidableEq, Repr

/-- `fr_channel_data_t`: the fields of a message the channel itself
reads or writes (`m.when`, `live.sequence`, `live.ack`,
`reply.processing_time`, `reply.cpu_time`); the payload is opaque. -/
structure fr_channel_data_t where
  when : Nat
  sequence : Nat
  ack : Nat
  processing_time : Nat
  cpu_time : Nat
deriving DecidableEq, Repr

/-- `fr_channel_end_t`: one end of a channel.  The kqueue descriptor,
the `fr_control_t` handle and the opaque `ctx` slot carry no state
relevant to the claims: sending on `control` is modelled as pushing
directly onto `aq_control`, the queue over which the control handle of
this end was created. -/
structure fr_channel_end_t where
  aq_control : fr_atomic_queue_t fr_channel_control_t
  num_outstanding : Int
  num_signals : Nat
  num_resignals : Nat
  num_kevents : Nat
  sequence : Nat
  ack : Nat
  sequence_at_last_signal : Nat
  last_write : Nat
  last_read_other : Nat
  message_interval : Nat
  last_sent_signal : Nat
  aq : fr_atomic_queue_t fr_channel_data_t
deriving DecidableEq, Repr

/-- `fr_channel_t`: a full channel.  `toWorker` is `end[TO_WORKER]`
(index 0) and `fromWorker` is `end[FROM_WORKER]` (index 1). -/
structure fr_channel_t where
  cpu_time : Nat
  processing_time : Nat
  active : Bool
  toWorker : fr_channel_end_t
  fromWorker : fr_channel_end_t
deriving DecidableEq, Repr

/-- Modelled from the spec: `fr_control_message_send` of
`src/util/control.c` (not under the verified sources): push the record
onto the control queue of the given end, returning `0` on success and a
negative code when the control queue is full. -/
def fr_control_message_send (e : fr_channel_end_t) (cc : fr_channel_control_t) :
    Int × fr_channel_end_t :=
  match fr_atomic_queue_push e.aq_control cc with
  | some q => (0, { e with aq_control := q })
  | none => (-1, e)

/-- `fr_channel_data_ready`: stamp `last_sent_signal`, count the signal,
and send the control record `{which, end.ack}` over the end's control
plane. -/
def fr_channel_data_ready (e : fr_channel_end_t) (when : Nat)
    (which : fr_channel_signal_t) : Int × fr_channel_end_t :=
  let e1 := { e with last_sent_signal := when, num_signals := e.num_signals + 1 }
  fr_control_message_send e1 { signal := which, ack := e1.ack }

/-- `fr_channel_create`: the successful path (all allocations succeed).
`talloc_zero` zeroes every field; the timers of both ends are then set
to `now` (the value of `fr_time()` during the call), the control queues
are attached (`end[TO_WORKER].aq_control = aq_worker`,
`end[FROM_WORKER].aq_control = aq_master`), the data queues are created
with capacity `ATOMIC_QUEUE_SIZE`, and `active` is set to true. -/
def fr_channel_create (now : Nat)
    (aq_master aq_worker : fr_atomic_queue_t fr_channel_control_t) : fr_channel_t :=
  let freshEnd : fr_channel_end_t :=
    { aq_control := aq_worker
      num_outstanding := 0
      num_signals := 0
      num_resignals := 0
      num_kevents := 0
      sequence := 0
      ack := 0
      sequence_at_last_signal := 0
      last_write := now
      last_read_other := now
      message_interval := 0
      last_sent_signal := now
      aq := { capacity := ATOMIC_QUEUE_SIZE, items := [] } }
  { cpu_time := 0
    processing_time := 0
    active := true
    toWorker := freshEnd
    fromWorker := { freshEnd with aq_control := aq_master } }

/-- `fr_channel_recv_reply`: pop from the FROM_WORKER data queue; on a
message, update the channel's smoothed `processing_time` and `cpu_time`,
then update the TO_WORKER (master) end. -/
def fr_channel_recv_reply (ch : fr_channel_t) :
    Option fr_channel_data_t × fr_channel_t :=
  match fr_atomic_queue_pop ch.fromWorker.aq with
  | none => (none, ch)
  | some (cd, aq1) =>
    let ch1 := { ch with
      fromWorker := { ch.fromWorker with aq := aq1 }
      processing_time := RTT ch.processing_time cd.processing_time
      cpu_time := cd.cpu_time }
    let m := { ch1.toWorker with
      num_outstanding := ch1.toWorker.num_outstanding - 1
      ack := cd.sequence
      last_read_other := cd.when }
    (some cd, { ch1 with toWorker := m })

/-- `fr_channel_recv_request`: pop from the TO_WORKER data queue; on a
message, update the FROM_WORKER (worker) end. -/
def fr_channel_recv_request (ch : fr_channel_t) :
    Option fr_channel_data_t × fr_channel_t :=
  match fr_atomic_queue_pop ch.toWorker.aq with
  | none => (none, ch)
  | some (cd, aq1) =>
    let ch1 := { ch with toWorker := { ch.toWorker with aq := aq1 } }
    let w := { ch1.fromWorker with
      num_outstanding := ch1.fromWorker.num_outstanding + 1
      ack := cd.sequence
      last_read_other := cd.when }
    (some cd, { ch1 with fromWorker := w })

/-- Result of a send operation: the return code, the piggybacked
message (`*p_reply` of `fr_channel_send_request`, `*p_request` of
`fr_channel_send_reply`) and the post-state. -/
structure SendResult where
  rcode : Int
  reply : Option fr_channel_data_t
  ch : fr_channel_t
deriving DecidableEq, Repr

/-- `fr_channel_send_request`: stamp the message, push it onto the
TO_WORKER data queue (on failure, sweep one reply and return -1),
update the master bookkeeping, then decide between returning a
piggybacked reply and signaling the worker.  In the source, when
`num_outstanding` after the increment is neither `1` nor `> 1` (only
possible from a negative value), `*p_reply` is left uninitialized and
control falls through to the signal; the model returns `none` there. -/
def fr_channel_send_request (ch : fr_channel_t) (cd : fr_channel_data_t) : SendResult :=
  let master := ch.toWorker
  let when := cd.when
  let sequence := master.sequence + 1
  let cd1 := { cd with sequence := sequence, ack := master.ack }
  match fr_atomic_queue_push master.aq cd1 with
  | none =>
    let p := fr_channel_recv_reply ch
    { rcode := -1, reply := p.1, ch := p.2 }
  | some aq1 =>
    let master1 := { master with
      aq := aq1
      sequence := sequence
      message_interval := RTT master.message_interval (u64sub when master.last_write)
      last_write := when
      num_outstanding := master.num_outstanding + 1 }
    let ch1 := { ch with toWorker := master1 }
    if master1.num_outstanding = 1 then
      let dr := fr_channel_data_ready ch1.toWorker when .dataToWorker
      { rcode := dr.1, reply := none, ch := { ch1 with toWorker := dr.2 } }
    else if master1.num_outstanding > 1 then
      let p := fr_channel_recv_reply ch1
      if p.1 = none ∨ (p.1 ≠ none ∧ p.2.toWorker.num_outstanding > 1) then
        { rcode := 0, reply := p.1, ch := p.2 }
      else
        let dr := fr_channel_data_ready p.2.toWorker when .dataToWorker
        { rcode := dr.1, reply := p.1, ch := { p.2 with toWorker := dr.2 } }
    else
      let dr := fr_channel_data_ready ch1.toWorker when .dataToWorker
      { rcode := dr.1, reply := none, ch := { ch1 with toWorker := dr.2 } }

/-- `fr_channel_send_reply`: stamp the message, push it onto the
FROM_WORKER data queue (on failure, sweep one request and return -1),
update the worker bookkeeping, sweep one request, then either announce
`dataDoneWorker` (no requests outstanding), elide the signal, or signal
`dataFromWorker`.  The `__APPLE__`-only early return on
`sequence_at_last_signal` is not compiled on this platform and is not
part of the model. -/
def fr_channel_send_reply (ch : fr_channel_t) (cd : fr_channel_data_t) : SendResult :=
  let worker := ch.fromWorker
  let when := cd.when
  let sequence := worker.sequence + 1
  let cd1 := { cd with sequence := sequence, ack := worker.ack }
  match fr_atomic_queue_push worker.aq cd1 with
  | none =>
    let p := fr_channel_recv_request ch
    { rcode := -1, reply := p.1, ch := p.2 }
  | some aq1 =>
    let worker1 := { worker with
      aq := aq1
      num_outstanding := worker.num_outstanding - 1
      sequence := sequence
      message_interval := RTT worker.message_interval (u64sub when worker.last_write)
      last_write := when }
    let p := fr_channel_recv_request { ch with fromWorker := worker1 }
    let ch1 := p.2
    if ch1.fromWorker.num_outstanding = 0 then
      let dr := fr_channel_data_ready ch1.fromWorker when .dataDoneWorker
      { rcode := dr.1, reply := p.1, ch := { ch1 with fromWorker := dr.2 } }
    else if u64sub ch1.fromWorker.sequence ch1.toWorker.ack ≤ 1000 ∧
        (u64sub when ch1.fromWorker.last_read_other < SIGNAL_INTERVAL ∨
         u64sub when ch1.fromWorker.last_sent_signal < SIGNAL_INTERVAL) then
      { rcode := 0, reply := p.1, ch := ch1 }
    else
      let dr := fr_channel_data_ready ch1.fromWorker when .dataFromWorker
      { rcode := dr.1, reply := p.1, ch := { ch1 with fromWorker := dr.2 } }

/-- `fr_channel_worker_sleeping`: on the worker's idle path, do nothing
when no requests are outstanding, else count a signal and post a
`workerSleeping` control record carrying the worker's ack. -/
def fr_channel_worker_sleeping (ch : fr_channel_t) : Int × fr_channel_t :=
  if ch.fromWorker.num_outstanding = 0 then (0, ch)
  else
    let w := { ch.fromWorker with num_signals := ch.fromWorker.num_signals + 1 }
    let p := fr_control_message_send w { signal := .workerSleeping, ack := w.ack }
    (p.1, { ch with fromWorker := p.2 })

/-- The tail of `fr_channel_service_aq` for worker-originated records
(`dataDoneWorker` / `workerSleeping`): compare the record's ack with
`end[TO_WORKER].sequence`; when they differ, count a resignal and emit
a fresh `dataToWorker` signal, turning a failed emission into an
`error` event. -/
def resignal_check (ch : fr_channel_t) (when : Nat) (ack : Nat)
    (ce : fr_channel_event_t) : fr_channel_event_t × fr_channel_t :=
  if ack = ch.toWorker.sequence then (ce, ch)
  else
    let e := { ch.toWorker with num_resignals := ch.toWorker.num_resignals + 1 }
    let dr := fr_channel_data_ready e when .dataToWorker
    let ch1 := { ch with toWorker := dr.2 }
    if dr.1 < 0 then (.error, ch1) else (ce, ch1)

/-- `fr_channel_service_aq`: pop one control record from the master's
control queue (`end[FROM_WORKER].aq_control`, which the function's
assertion pins down for worker-originated records; the framed
`fr_control_message_pop` is modelled as a queue pop).  The first five
signals are returned as the corresponding events unchanged;
`dataDoneWorker` and `workerSleeping` go through `resignal_check`. -/
def fr_channel_service_aq (ch : fr_channel_t) (when : Nat) :
    fr_channel_event_t × fr_channel_t :=
  match fr_atomic_queue_pop ch.fromWorker.aq_control with
  | none => (.empty, ch)
  | some (cc, q1) =>
    let ch1 := { ch with fromWorker := { ch.fromWorker with aq_control := q1 } }
    match cc.signal with
    | .error => (.error, ch1)
    | .dataToWorker => (.dataReadyWorker, ch1)
    | .dataFromWorker => (.dataReadyReceiver, ch1)
    | .openSig => (.openEv, ch1)
    | .closeSig => (.closeEv, ch1)
    | .dataDoneWorker => resignal_check ch1 when cc.ack .dataReadyReceiver
    | .workerSleeping => resignal_check ch1 when cc.ack .noop

/-- `fr_channel_active`. -/
def fr_channel_active (ch : fr_channel_t) : Bool := ch.active

/-- `fr_channel_signal_worker_close`: set `active` to false and post a
CLOSE control record (whose ack field carries the endpoint index
`TO_WORKER = 0`) on the worker's control plane. -/
def fr_channel_signal_worker_close (ch : fr_channel_t) : Int × fr_channel_t :=
  let ch1 := { ch with active := false }
  let p := fr_control_message_send ch1.toWorker { signal := .closeSig, ack := 0 }
  (p.1, { ch1 with toWorker := p.2 })

/-- `fr_channel_worker_ack_close`: set `active` to false and post a
CLOSE control record (whose ack field carries the endpoint index
`FROM_WORKER = 1`) on the master's control plane. -/
def fr_channel_worker_ack_close (ch : fr_channel_t) : Int × fr_channel_t :=
  let ch1 := { ch with active := false }
  let p := fr_control_message_send ch1.fromWorker { signal := .closeSig, ack := 1 }
  (p.1, { ch1 with fromWorker := p.2 })

/-- The control records an operation appended to the control queue of
an end: the suffix of the new queue past the old queue's length,
projected to the signals. -/
def sentSignals (oldE newE : fr_channel_end_t) : List fr_channel_signal_t :=
  (newE.aq_control.items.drop oldE.aq_control.items.length).map (fun c => c.signal)

/-- An empty control queue of capacity 8, used as the control plane of
the concrete states below. -/
def ctl8 : fr_atomic_queue_t fr_channel_control_t := { capacity := 8, items := [] }

/-- A freshly created channel (creation time 0). -/
def base : fr_channel_t := fr_channel_create 0 ctl8 ctl8

/-- The request message of scenario S1: `when = 100`. -/
def s1req : fr_channel_data_t :=
  { when := 100, sequence := 0, ack := 0, processing_time := 0, cpu_time := 0 }

/-- The reply message of scenario S1: `when = 200`,
`processing_time = 100`, `cpu_time = 100`. -/
def s1rep : fr_channel_data_t :=
  { when := 200, sequence := 0, ack := 0, processing_time := 100, cpu_time := 100 }

/-- Scenario S1 run on the model: master sends `s1req`, the worker
receives it and sends `s1rep`, the master receives the reply; this is
the master's final view of the channel. -/
def s1final : fr_channel_t :=
  (fr_channel_recv_reply
    (fr_channel_send_reply
      (fr_channel_recv_request (fr_channel_send_request base s1req).ch).2 s1rep).ch).2

/-- A channel on which the master has one request outstanding and the
worker has produced no reply yet. -/
def c1ch : fr_channel_t :=
  { base with toWorker := { base.toWorker with num_outstanding := 1, sequence := 1 } }

/-- A pending reply with sequence 1. -/
def c2m : fr_channel_data_t :=
  { when := 50, sequence := 1, ack := 1, processing_time := 40, cpu_time := 60 }

/-- A channel with one outstanding request and the reply `c2m` waiting
in the FROM_WORKER data queue. -/
def c2ch : fr_channel_t :=
  { base with
    toWorker := { base.toWorker with num_outstanding := 1, sequence := 1 }
    fromWorker := { base.fromWorker with
      aq := { capacity := ATOMIC_QUEUE_SIZE, items := [c2m] } } }

/-- A WORKER_SLEEPING control record acknowledging only sequence 1. -/
def c3cc : fr_channel_control_t := { signal := .workerSleeping, ack := 1 }

/-- A channel whose master control queue holds `c3cc` while
`end[TO_WORKER].sequence` is already 2 (the worker is behind). -/
def c3ch : fr_channel_t :=
  { base with
    toWorker := { base.toWorker with sequence := 2, num_outstanding := 2 }
    fromWorker := { base.fromWorker with aq_control := { ctl8 with items := [c3cc] } } }

/-- A reply message used while probing `fr_channel_send_reply`. -/
def c4cd : fr_channel_data_t :=
  { when := 500, sequence := 0, ack := 0, processing_time := 0, cpu_time := 0 }

/-- A worker endpoint far ahead of the master's ack (2000 unacked
messages) with several requests outstanding. -/
def c4ch : fr_channel_t :=
  { base with fromWorker := { base.fromWorker with sequence := 2000, num_outstanding := 5 } }

/-- A reply pending while the TO_WORKER data queue is full. -/
def c5rep : fr_channel_data_t :=
  { when := 300, sequence := 1, ack := 1, processing_time := 10, cpu_time := 20 }

/-- A completely full TO_WORKER data queue (1024 messages). -/
def c5full : fr_atomic_queue_t fr_channel_data_t :=
  { capacity := ATOMIC_QUEUE_SIZE, items := List.replicate 1024 s1req }

/-- A channel whose TO_WORKER data queue is full, with two requests
outstanding and the reply `c5rep` pending. -/
def c5ch : fr_channel_t :=
  { base with
    toWorker := { base.toWorker with aq := c5full, num_outstanding := 2, sequence := 2 }
    fromWorker := { base.fromWorker with
      aq := { capacity := ATOMIC_QUEUE_SIZE, items := [c5rep] } } }

/-- A channel that has been marked inactive. -/
def c6ch : fr_channel_t := { base with active := false }

/-- An endpoint whose control queue can hold nothing (capacity 0), so
every control-plane push fails. -/
def c9e : fr_channel_end_t :=
  { base.toWorker with aq_control := { capacity := 0, items := [] }, num_signals := 5 }

/-- The TO_WORKER endpoint right after the successful push of
`fr_channel_send_request`: message stamped and appended, sequence
advanced, message interval smoothed, `last_write` stamped, one more
outstanding request. -/
def requestPushedEnd (ch : fr_channel_t) (cd : fr_channel_data_t) : fr_channel_end_t :=
  { ch.toWorker with
    aq := { ch.toWorker.aq with
      items := ch.toWorker.aq.items ++
        [{ cd with sequence := ch.toWorker.sequence + 1, ack := ch.toWorker.ack }] }
    sequence := ch.toWorker.sequence + 1
    message_interval := RTT ch.toWorker.message_interval (u64sub cd.when ch.toWorker.last_write)
    last_write := cd.when
    num_outstanding := ch.toWorker.num_outstanding + 1 }

/-- The FROM_WORKER endpoint right after the successful push of
`fr_channel_send_reply`: message stamped and appended, one fewer
outstanding request, sequence advanced, message interval smoothed,
`last_write` stamped. -/
def replyPushedEnd (ch : fr_channel_t) (cd : fr_channel_data_t) : fr_channel_end_t :=
  { ch.fromWorker with
    aq := { ch.fromWorker.aq with
      items := ch.fromWorker.aq.items ++
        [{ cd with sequence := ch.fromWorker.sequence + 1, ack := ch.fromWorker.ack }] }
    num_outstanding := ch.fromWorker.num_outstanding - 1
    sequence := ch.fromWorker.sequence + 1
    message_interval := RTT ch.fromWorker.message_interval (u64sub cd.when ch.fromWorker.last_write)
    last_write := cd.when }

end FrChannel

namespace FrChannel

theorem aqPush_some {α : Type} (q : fr_atomic_queue_t α) (x : α)
    (h : q.items.length < q.capacity) :
    fr_atomic_queue_push q x = some { q with items := q.items ++ [x] } := by
  simp [fr_atomic_queue_push, h]

theorem aqPush_none {α : Type} (q : fr_atomic_queue_t α) (x : α)
    (h : ¬ q.items.length < q.capacity) :
    fr_atomic_queue_push q x = none := by
  simp [fr_atomic_queue_push, h]

theorem aqPop_eq_none {α : Type} (q : fr_atomic_queue_t α) (h : q.items = []) :
    fr_atomic_queue_pop q = none := by
  obtain ⟨cap, items⟩ := q
  simp only at h
  subst h
  rfl

theorem aqPop_eq_cons {α : Type} (q : fr_atomic_queue_t α) (x : α) (rest : List α)
    (h : q.items = x :: rest) :
    fr_atomic_queue_pop q = some (x, { q with items := rest }) := by
  obtain ⟨cap, items⟩ := q
  simp only at h
  subst h
  rfl

theorem controlSend_some (e : fr_channel_end_t) (cc : fr_channel_control_t)
    (h : e.aq_control.items.length < e.aq_control.capacity) :
    fr_control_message_send e cc =
      (0, { e with aq_control :=
              { e.aq_control with items := e.aq_control.items ++ [cc] } }) := by
  unfold fr_control_message_send
  rw [aqPush_some _ _ h]

theorem controlSend_none (e : fr_channel_end_t) (cc : fr_channel_control_t)
    (h : ¬ e.aq_control.items.length < e.aq_control.capacity) :
    fr_control_message_send e cc = (-1, e) := by
  unfold fr_control_message_send
  rw [aqPush_none _ _ h]

theorem dataReady_some (e : fr_channel_end_t) (when : Nat) (which : fr_channel_signal_t)
    (h : e.aq_control.items.length < e.aq_control.capacity) :
    fr_channel_data_ready e when which =
      (0, { e with
            last_sent_signal := when
            num_signals := e.num_signals + 1
            aq_control :=
              { e.aq_control with items := e.aq_control.items ++ [⟨which, e.ack⟩] } }) := by
  simp only [fr_channel_data_ready]
  exact controlSend_some _ _ h

theorem dataReady_none (e : fr_channel_end_t) (when : Nat) (which : fr_channel_signal_t)
    (h : ¬ e.aq_control.items.length < e.aq_control.capacity) :
    fr_channel_data_ready e when which =
      (-1, { e with last_sent_signal := when, num_signals := e.num_signals + 1 }) := by
  simp only [fr_channel_data_ready]
  exact controlSend_none _ _ h

theorem sentSignals_of_append (oldE newE : fr_channel_end_t)
    (l : List fr_channel_control_t)
    (h : newE.aq_control.items = oldE.aq_control.items ++ l) :
    sentSignals oldE newE = l.map (fun c => c.signal) := by
  unfold sentSignals
  rw [h, List.drop_left]

theorem sentSignals_of_eq (oldE newE : fr_channel_end_t)
    (h : newE.aq_control.items = oldE.aq_control.items) :
    sentSignals oldE newE = [] := by
  unfold sentSignals
  rw [h, List.drop_length, List.map_nil]

theorem u64sub_eq_sub (a b : Nat) (hb : b ≤ a) (ha : a < U64) : u64sub a b = a - b := by
  unfold u64sub
  have hbU : b < U64 := lt_of_le_of_lt hb ha
  rw [Nat.mod_eq_of_lt hbU]
  have h1 : a + (U64 - b) = (a - b) + U64 := by omega
  rw [h1, Nat.add_mod_right]
  exact Nat.mod_eq_of_lt (by omega)

theorem recv_reply_of_empty (ch : fr_channel_t) (h : ch.fromWorker.aq.items = []) :
    fr_channel_recv_reply ch = (none, ch) := by
  unfold fr_channel_recv_reply
  rw [aqPop_eq_none _ h]

theorem recv_reply_of_cons (ch : fr_channel_t) (m : fr_channel_data_t)
    (rest : List fr_channel_data_t) (h : ch.fromWorker.aq.items = m :: rest) :
    fr_channel_recv_reply ch =
      (some m,
        { ch with
          fromWorker := { ch.fromWorker with aq := { ch.fromWorker.aq with items := rest } }
          processing_time := RTT ch.processing_time m.processing_time
          cpu_time := m.cpu_time
          toWorker := { ch.toWorker with
            num_outstanding := ch.toWorker.num_outstanding - 1
            ack := m.sequence
            last_read_other := m.when } }) := by
  unfold fr_channel_recv_reply
  rw [aqPop_eq_cons _ _ _ h]

theorem recv_request_of_empty (ch : fr_channel_t) (h : ch.toWorker.aq.items = []) :
    fr_channel_recv_request ch = (none, ch) := by
  unfold fr_channel_recv_request
  rw [aqPop_eq_none _ h]

theorem recv_request_of_cons (ch : fr_channel_t) (m : fr_channel_data_t)
    (rest : List fr_channel_data_t) (h : ch.toWorker.aq.items = m :: rest) :
    fr_channel_recv_request ch =
      (some m,
        { ch with
          toWorker := { ch.toWorker with aq := { ch.toWorker.aq with items := rest } }
          fromWorker := { ch.fromWorker with
            num_outstanding := ch.fromWorker.num_outstanding + 1
            ack := m.sequence
            last_read_other := m.when } }) := by
  unfold fr_channel_recv_request
  rw [aqPop_eq_cons _ _ _ h]

end FrChannel

namespace FrChannel

theorem signal_worker_close_eq (ch : fr_channel_t)
    (h : ch.toWorker.aq_control.items.length < ch.toWorker.aq_control.capacity) :
    fr_channel_signal_worker_close ch =
      (0, { ch with
            active := false
            toWorker := { ch.toWorker with aq_control :=
              { ch.toWorker.aq_control with
                items := ch.toWorker.aq_control.items ++ [⟨.closeSig, 0⟩] } } }) := by
  have h1 : ({ ch with active := false } : fr_channel_t).toWorker.aq_control.items.length <
      ({ ch with active := false } : fr_channel_t).toWorker.aq_control.capacity := h
  simp only [fr_channel_signal_worker_close]
  rw [controlSend_some _ _ h1]

theorem worker_ack_close_eq (ch : fr_channel_t)
    (h : ch.fromWorker.aq_control.items.length < ch.fromWorker.aq_control.capacity) :
    fr_channel_worker_ack_close ch =
      (0, { ch with
            active := false
            fromWorker := { ch.fromWorker with aq_control :=
              { ch.fromWorker.aq_control with
                items := ch.fromWorker.aq_control.items ++ [⟨.closeSig, 1⟩] } } }) := by
  have h1 : ({ ch with active := false } : fr_channel_t).fromWorker.aq_control.items.length <
      ({ ch with active := false } : fr_channel_t).fromWorker.aq_control.capacity := h
  simp only [fr_channel_worker_ack_close]
  rw [controlSend_some _ _ h1]

/-- Claim C10: every channel returned by a successful `fr_channel_create`
has `active = true`; both endpoints start with `sequence = 0`, `ack = 0`,
`num_outstanding = 0`, zero diagnostic counters, and all three timers
equal to the creation time; hence `ack ≤ peer.sequence` and
`num_outstanding = sequence - peer.ack = 0` hold initially. -/
theorem C10_theorem (now : Nat) (aqm aqw : fr_atomic_queue_t fr_channel_control_t) :
    (fr_channel_create now aqm aqw).active = true ∧
    ((fr_channel_create now aqm aqw).toWorker.sequence = 0 ∧
     (fr_channel_create now aqm aqw).toWorker.ack = 0 ∧
     (fr_channel_create now aqm aqw).toWorker.num_outstanding = 0 ∧
     (fr_channel_create now aqm aqw).toWorker.num_signals = 0 ∧
     (fr_channel_create now aqm aqw).toWorker.num_resignals = 0 ∧
     (fr_channel_create now aqm aqw).toWorker.num_kevents = 0 ∧
     (fr_channel_create now aqm aqw).toWorker.last_write = now ∧
     (fr_channel_create now aqm aqw).toWorker.last_read_other = now ∧
     (fr_channel_create now aqm aqw).toWorker.last_sent_signal = now) ∧
    ((fr_channel_create now aqm aqw).fromWorker.sequence = 0 ∧
     (fr_channel_create now aqm aqw).fromWorker.ack = 0 ∧
     (fr_channel_create now aqm aqw).fromWorker.num_outstanding = 0 ∧
     (fr_channel_create now aqm aqw).fromWorker.num_signals = 0 ∧
     (fr_channel_create now aqm aqw).fromWorker.num_resignals = 0 ∧
     (fr_channel_create now aqm aqw).fromWorker.num_kevents = 0 ∧
     (fr_channel_create now aqm aqw).fromWorker.last_write = now ∧
     (fr_channel_create now aqm aqw).fromWorker.last_read_other = now ∧
     (fr_channel_create now aqm aqw).fromWorker.last_sent_signal = now) ∧
    ((fr_channel_create now aqm aqw).toWorker.ack ≤
       (fr_channel_create now aqm aqw).fromWorker.sequence ∧
     (fr_channel_create now aqm aqw).fromWorker.ack ≤
       (fr_channel_create now aqm aqw).toWorker.sequence ∧
     (fr_channel_create now aqm aqw).toWorker.num_outstanding =
       ((fr_channel_create now aqm aqw).toWorker.sequence : Int) -
         ((fr_channel_create now aqm aqw).fromWorker.ack : Int) ∧
     (fr_channel_create now aqm aqw).toWorker.num_outstanding = 0) := by
  refine ⟨rfl, ⟨rfl, rfl, rfl, rfl, rfl, rfl, rfl, rfl, rfl⟩,
    ⟨rfl, rfl, rfl, rfl, rfl, rfl, rfl, rfl, rfl⟩,
    ⟨Nat.le_refl 0, Nat.le_refl 0, rfl, rfl⟩⟩

/-- Claim C2: `fr_channel_recv_reply` returns `none` on an empty
FROM_WORKER data queue; on a pending reply `m` (with the asserted
preconditions `master.ack < m.sequence ≤ master.sequence`) it pops `m`,
decrements `num_outstanding`, sets `master.ack = m.sequence`,
`master.last_read_other = m.when`, updates `processing_time` by the EMA
with sample `m.processing_time`, sets `cpu_time = m.cpu_time` and
returns `m`. -/
theorem C2_theorem (ch : fr_channel_t) :
    (ch.fromWorker.aq.items = [] → fr_channel_recv_reply ch = (none, ch)) ∧
    (∀ m rest, ch.fromWorker.aq.items = m :: rest →
      ch.toWorker.ack < m.sequence → m.sequence ≤ ch.toWorker.sequence →
      (fr_channel_recv_reply ch).1 = some m ∧
      (fr_channel_recv_reply ch).2.toWorker.num_outstanding =
        ch.toWorker.num_outstanding - 1 ∧
      (fr_channel_recv_reply ch).2.toWorker.ack = m.sequence ∧
      (fr_channel_recv_reply ch).2.toWorker.last_read_other = m.when ∧
      (fr_channel_recv_reply ch).2.processing_time =
        RTT ch.processing_time m.processing_time ∧
      (fr_channel_recv_reply ch).2.cpu_time = m.cpu_time ∧
      (fr_channel_recv_reply ch).2.fromWorker.aq.items = rest) := by
  constructor
  · intro h
    exact recv_reply_of_empty ch h
  · intro m rest h _ _
    rw [recv_reply_of_cons ch m rest h]
    exact ⟨rfl, rfl, rfl, rfl, rfl, rfl, rfl⟩

/-- Witness for C2 on the concrete state `c2ch` with pending reply `c2m`. -/
theorem C2_witness :
    (fr_channel_recv_reply c2ch).1 = some c2m ∧
    (fr_channel_recv_reply c2ch).2.toWorker.num_outstanding =
      c2ch.toWorker.num_outstanding - 1 ∧
    (fr_channel_recv_reply c2ch).2.toWorker.ack = c2m.sequence := by
  have h := (C2_theorem c2ch).2 c2m [] rfl (by decide) (by decide)
  exact ⟨h.1, h.2.1, h.2.2.1⟩

/-- Claim C7 is corrected by this counterexample: after two same-side
closes from a fresh channel the worker's control queue holds TWO CLOSE
records, not one. -/
theorem C7_counterexample :
    (fr_channel_signal_worker_close base).2.toWorker.aq_control.items
      = [⟨.closeSig, 0⟩] ∧
    (fr_channel_signal_worker_close (fr_channel_signal_worker_close base).2).2.toWorker.aq_control.items
      = [⟨.closeSig, 0⟩, ⟨.closeSig, 0⟩] := by decide

/-- Claim C7 (amended): a second close from the same side leaves the
channel fields unchanged (in particular `active` stays false) except
that it appends one more CLOSE control record to the peer's control
queue: the peer observes one CLOSE record per call, not one in total. -/
theorem C7_theorem (ch : fr_channel_t)
    (h1 : ch.toWorker.aq_control.items.length + 1 < ch.toWorker.aq_control.capacity)
    (h2 : ch.fromWorker.aq_control.items.length + 1 < ch.fromWorker.aq_control.capacity) :
    (fr_channel_signal_worker_close ch).2.active = false ∧
    (fr_channel_signal_worker_close (fr_channel_signal_worker_close ch).2).2.active = false ∧
    (fr_channel_signal_worker_close ch).2.toWorker.aq_control.items =
      ch.toWorker.aq_control.items ++ [⟨.closeSig, 0⟩] ∧
    (fr_channel_signal_worker_close (fr_channel_signal_worker_close ch).2).2.toWorker.aq_control.items =
      ch.toWorker.aq_control.items ++ [⟨.closeSig, 0⟩, ⟨.closeSig, 0⟩] ∧
    (fr_channel_signal_worker_close (fr_channel_signal_worker_close ch).2).2 =
      { (fr_channel_signal_worker_close ch).2 with
        toWorker := { (fr_channel_signal_worker_close ch).2.toWorker with
          aq_control := { (fr_channel_signal_worker_close ch).2.toWorker.aq_control with
            items := (fr_channel_signal_worker_close ch).2.toWorker.aq_control.items
              ++ [⟨.closeSig, 0⟩] } } } ∧
    (fr_channel_worker_ack_close ch).2.active = false ∧
    (fr_channel_worker_ack_close (fr_channel_worker_ack_close ch).2).2.active = false ∧
    (fr_channel_worker_ack_close (fr_channel_worker_ack_close ch).2).2.fromWorker.aq_control.items =
      ch.fromWorker.aq_control.items ++ [⟨.closeSig, 1⟩, ⟨.closeSig, 1⟩] := by
  rw [signal_worker_close_eq ch (by omega), worker_ack_close_eq ch (by omega)]
  rw [signal_worker_close_eq _ (by simp; omega), worker_ack_close_eq _ (by simp; omega)]
  simp [List.append_assoc]

/-- Witness for the amended C7 on a fresh channel. -/
theorem C7_witness :
    (fr_channel_signal_worker_close (fr_channel_signal_worker_close base).2).2.active = false ∧
    (fr_channel_signal_worker_close (fr_channel_signal_worker_close base).2).2.toWorker.aq_control.items
      = base.toWorker.aq_control.items ++ [⟨.closeSig, 0⟩, ⟨.closeSig, 0⟩] :=
  ⟨(C7_theorem base (by decide) (by decide)).2.1,
   (C7_theorem base (by decide) (by decide)).2.2.2.1⟩

/-- Claim C8 is corrected by this counterexample: running scenario S1
(the master sends `{when = 100}`, the worker replies
`{when = 200, processing_time = 100, cpu_time = 100}`, the master
receives the reply) leaves `processing_time` at 87, not 12:
`RTT(0, 100) = (0 + 7 * 100) / 8 = 87`. -/
theorem C8_counterexample :
    s1final.processing_time = 87 ∧ ¬ s1final.processing_time = 12 := by decide

/-- Claim C8 (amended): in scenario S1 the master ends with
`sequence = 1`, `ack = 1`, `num_outstanding = 0`, `cpu_time = 100` and
`processing_time = 87` (the EMA macro weights the new sample by 7/8:
`(0 + (8 - 1) * 100) / 8 = 87`). -/
theorem C8_theorem :
    s1final.processing_time = 87 ∧
    s1final.cpu_time = 100 ∧
    s1final.toWorker.sequence = 1 ∧
    s1final.toWorker.ack = 1 ∧
    s1final.toWorker.num_outstanding = 0 := by decide

/-- Claim C9 is corrected by this counterexample: on an endpoint whose
control queue is full, `fr_channel_data_ready` surfaces the failure
(-1) but `num_signals` HAS been incremented (from 5 to 6), because the
source increments the counter before attempting the push. -/
theorem C9_counterexample :
    (fr_channel_data_ready c9e 7 .dataToWorker).1 = -1 ∧
    c9e.num_signals = 5 ∧
    (fr_channel_data_ready c9e 7 .dataToWorker).2.num_signals = 6 := by decide

/-- Claim C9 (amended): when the control-plane push fails (control
queue full) the failure code is surfaced to the caller, but
`num_signals` has already been incremented (the counter counts
attempts) and `last_sent_signal` has been stamped; the control queue
itself is unchanged. -/
theorem C9_theorem (e : fr_channel_end_t) (when : Nat) (which : fr_channel_signal_t)
    (hfull : ¬ e.aq_control.items.length < e.aq_control.capacity) :
    (fr_channel_data_ready e when which).1 = -1 ∧
    (fr_channel_data_ready e when which).2.num_signals = e.num_signals + 1 ∧
    (fr_channel_data_ready e when which).2.last_sent_signal = when ∧
    (fr_channel_data_ready e when which).2.aq_control = e.aq_control := by
  rw [dataReady_none _ _ _ hfull]
  exact ⟨rfl, rfl, rfl, rfl⟩

/-- Witness for the amended C9 on the zero-capacity control queue. -/
theorem C9_witness :
    (fr_channel_data_ready c9e 8 .dataFromWorker).1 = -1 ∧
    (fr_channel_data_ready c9e 8 .dataFromWorker).2.num_signals = c9e.num_signals + 1 :=
  ⟨(C9_theorem c9e 8 .dataFromWorker (by decide)).1,
   (C9_theorem c9e 8 .dataFromWorker (by decide)).2.1⟩

end FrChannel

namespace FrChannel

theorem send_request_eq_full (ch : fr_channel_t) (cd : fr_channel_data_t)
    (hfull : ¬ ch.toWorker.aq.items.length < ch.toWorker.aq.capacity) :
    fr_channel_send_request ch cd =
      { rcode := -1, reply := (fr_channel_recv_reply ch).1,
        ch := (fr_channel_recv_reply ch).2 } := by
  simp only [fr_channel_send_request]
  rw [aqPush_none _ _ hfull]

theorem send_request_eq_first (ch : fr_channel_t) (cd : fr_channel_data_t)
    (hpush : ch.toWorker.aq.items.length < ch.toWorker.aq.capacity)
    (h0 : ch.toWorker.num_outstanding = 0)
    (hctl : ch.toWorker.aq_control.items.length < ch.toWorker.aq_control.capacity) :
    fr_channel_send_request ch cd =
      { rcode := 0, reply := none,
        ch := { ch with toWorker :=
          { requestPushedEnd ch cd with
            last_sent_signal := cd.when
            num_signals := ch.toWorker.num_signals + 1
            aq_control := { ch.toWorker.aq_control with
              items := ch.toWorker.aq_control.items ++
                [⟨.dataToWorker, ch.toWorker.ack⟩] } } } } := by
  simp [fr_channel_send_request, fr_atomic_queue_push, fr_channel_data_ready,
    fr_control_message_send, requestPushedEnd, hpush, h0, hctl]

theorem send_request_eq_empty (ch : fr_channel_t) (cd : fr_channel_data_t)
    (hpush : ch.toWorker.aq.items.length < ch.toWorker.aq.capacity)
    (hn : 0 < ch.toWorker.num_outstanding)
    (hempty : ch.fromWorker.aq.items = []) :
    fr_channel_send_request ch cd =
      { rcode := 0, reply := none, ch := { ch with toWorker := requestPushedEnd ch cd } } := by
  have h1 : ¬ (ch.toWorker.num_outstanding + 1 = 1) := by omega
  have h2 : ch.toWorker.num_outstanding + 1 > 1 := by omega
  simp [fr_channel_send_request, fr_atomic_queue_push, fr_channel_recv_reply,
    fr_atomic_queue_pop, requestPushedEnd, hpush, h1, h2, hempty]

theorem send_request_eq_skip (ch : fr_channel_t) (cd : fr_channel_data_t)
    (m : fr_channel_data_t) (rest : List fr_channel_data_t)
    (hpush : ch.toWorker.aq.items.length < ch.toWorker.aq.capacity)
    (hn : 1 < ch.toWorker.num_outstanding)
    (hcons : ch.fromWorker.aq.items = m :: rest) :
    fr_channel_send_request ch cd =
      { rcode := 0, reply := some m,
        ch := { ch with
          toWorker := { requestPushedEnd ch cd with
            num_outstanding := ch.toWorker.num_outstanding
            ack := m.sequence
            last_read_other := m.when }
          fromWorker := { ch.fromWorker with
            aq := { ch.fromWorker.aq with items := rest } }
          processing_time := RTT ch.processing_time m.processing_time
          cpu_time := m.cpu_time } } := by
  have h1 : ¬ (ch.toWorker.num_outstanding + 1 = 1) := by omega
  have h2 : ch.toWorker.num_outstanding + 1 > 1 := by omega
  have h3 : ch.toWorker.num_outstanding + 1 - 1 = ch.toWorker.num_outstanding := by omega
  have h4 : ch.toWorker.num_outstanding + 1 - 1 > 1 := by omega
  have h5 : ¬ (ch.toWorker.num_outstanding ≤ 1) := by omega
  simp [fr_channel_send_request, fr_atomic_queue_push, fr_channel_recv_reply,
    fr_atomic_queue_pop, requestPushedEnd, hpush, h1, h2, h3, h4, h5, hcons]

theorem send_request_eq_signal (ch : fr_channel_t) (cd : fr_channel_data_t)
    (m : fr_channel_data_t) (rest : List fr_channel_data_t)
    (hpush : ch.toWorker.aq.items.length < ch.toWorker.aq.capacity)
    (hone : ch.toWorker.num_outstanding = 1)
    (hcons : ch.fromWorker.aq.items = m :: rest)
    (hctl : ch.toWorker.aq_control.items.length < ch.toWorker.aq_control.capacity) :
    fr_channel_send_request ch cd =
      { rcode := 0, reply := some m,
        ch := { ch with
          toWorker := { requestPushedEnd ch cd with
            num_outstanding := 1
            ack := m.sequence
            last_read_other := m.when
            last_sent_signal := cd.when
            num_signals := ch.toWorker.num_signals + 1
            aq_control := { ch.toWorker.aq_control with
              items := ch.toWorker.aq_control.items ++ [⟨.dataToWorker, m.sequence⟩] } }
          fromWorker := { ch.fromWorker with
            aq := { ch.fromWorker.aq with items := rest } }
          processing_time := RTT ch.processing_time m.processing_time
          cpu_time := m.cpu_time } } := by
  simp [fr_channel_send_request, fr_atomic_queue_push, fr_channel_recv_reply,
    fr_atomic_queue_pop, fr_channel_data_ready, fr_control_message_send,
    requestPushedEnd, hpush, hone, hcons, hctl]

theorem send_reply_eq_full (ch : fr_channel_t) (cd : fr_channel_data_t)
    (hfull : ¬ ch.fromWorker.aq.items.length < ch.fromWorker.aq.capacity) :
    fr_channel_send_reply ch cd =
      { rcode := -1, reply := (fr_channel_recv_request ch).1,
        ch := (fr_channel_recv_request ch).2 } := by
  simp only [fr_channel_send_reply]
  rw [aqPush_none _ _ hfull]

theorem send_reply_eq_done_empty (ch : fr_channel_t) (cd : fr_channel_data_t)
    (hpush : ch.fromWorker.aq.items.length < ch.fromWorker.aq.capacity)
    (hempty : ch.toWorker.aq.items = [])
    (hdone : ch.fromWorker.num_outstanding - 1 = 0)
    (hctl : ch.fromWorker.aq_control.items.length < ch.fromWorker.aq_control.capacity) :
    fr_channel_send_reply ch cd =
      { rcode := 0, reply := none,
        ch := { ch with fromWorker :=
          { replyPushedEnd ch cd with
            last_sent_signal := cd.when
            num_signals := ch.fromWorker.num_signals + 1
            aq_control := { ch.fromWorker.aq_control with
              items := ch.fromWorker.aq_control.items ++
                [⟨.dataDoneWorker, ch.fromWorker.ack⟩] } } } } := by
  simp [fr_channel_send_reply, fr_atomic_queue_push, fr_channel_recv_request,
    fr_atomic_queue_pop, fr_channel_data_ready, fr_control_message_send,
    replyPushedEnd, hpush, hempty, hdone, hctl]

theorem send_reply_eq_skip_empty (ch : fr_channel_t) (cd : fr_channel_data_t)
    (hpush : ch.fromWorker.aq.items.length < ch.fromWorker.aq.capacity)
    (hempty : ch.toWorker.aq.items = [])
    (hne : ¬ ch.fromWorker.num_outstanding - 1 = 0)
    (hskip : u64sub (ch.fromWorker.sequence + 1) ch.toWorker.ack ≤ 1000 ∧
      (u64sub cd.when ch.fromWorker.last_read_other < SIGNAL_INTERVAL ∨
       u64sub cd.when ch.fromWorker.last_sent_signal < SIGNAL_INTERVAL)) :
    fr_channel_send_reply ch cd =
      { rcode := 0, reply := none, ch := { ch with fromWorker := replyPushedEnd ch cd } } := by
  simp [fr_channel_send_reply, fr_atomic_queue_push, fr_channel_recv_request,
    fr_atomic_queue_pop, replyPushedEnd, hpush, hempty, hne, hskip.1, hskip.2]

theorem send_reply_eq_sig_empty (ch : fr_channel_t) (cd : fr_channel_data_t)
    (hpush : ch.fromWorker.aq.items.length < ch.fromWorker.aq.capacity)
    (hempty : ch.toWorker.aq.items = [])
    (hne : ¬ ch.fromWorker.num_outstanding - 1 = 0)
    (hnskip : ¬ (u64sub (ch.fromWorker.sequence + 1) ch.toWorker.ack ≤ 1000 ∧
      (u64sub cd.when ch.fromWorker.last_read_other < SIGNAL_INTERVAL ∨
       u64sub cd.when ch.fromWorker.last_sent_signal < SIGNAL_INTERVAL)))
    (hctl : ch.fromWorker.aq_control.items.length < ch.fromWorker.aq_control.capacity) :
    fr_channel_send_reply ch cd =
      { rcode := 0, reply := none,
        ch := { ch with fromWorker :=
          { replyPushedEnd ch cd with
            last_sent_signal := cd.when
            num_signals := ch.fromWorker.num_signals + 1
            aq_control := { ch.fromWorker.aq_control with
              items := ch.fromWorker.aq_control.items ++
                [⟨.dataFromWorker, ch.fromWorker.ack⟩] } } } } := by
  simp [fr_channel_send_reply, fr_atomic_queue_push, fr_channel_recv_request,
    fr_atomic_queue_pop, fr_channel_data_ready, fr_control_message_send,
    replyPushedEnd, hpush, hempty, hne, hnskip, hctl]

theorem send_reply_eq_done_cons (ch : fr_channel_t) (cd : fr_channel_data_t)
    (m : fr_channel_data_t) (rest : List fr_channel_data_t)
    (hpush : ch.fromWorker.aq.items.length < ch.fromWorker.aq.capacity)
    (hcons : ch.toWorker.aq.items = m :: rest)
    (hdone : ch.fromWorker.num_outstanding = 0)
    (hctl : ch.fromWorker.aq_control.items.length < ch.fromWorker.aq_control.capacity) :
    fr_channel_send_reply ch cd =
      { rcode := 0, reply := some m,
        ch := { ch with
          toWorker := { ch.toWorker with aq := { ch.toWorker.aq with items := rest } }
          fromWorker :=
            { replyPushedEnd ch cd with
              num_outstanding := ch.fromWorker.num_outstanding
              ack := m.sequence
              last_read_other := m.when
              last_sent_signal := cd.when
              num_signals := ch.fromWorker.num_signals + 1
              aq_control := { ch.fromWorker.aq_control with
                items := ch.fromWorker.aq_control.items ++
                  [⟨.dataDoneWorker, m.sequence⟩] } } } } := by
  simp [fr_channel_send_reply, fr_atomic_queue_push, fr_channel_recv_request,
    fr_atomic_queue_pop, fr_channel_data_ready, fr_control_message_send,
    replyPushedEnd, hpush, hcons, hdone, hctl]

theorem send_reply_eq_skip_cons (ch : fr_channel_t) (cd : fr_channel_data_t)
    (m : fr_channel_data_t) (rest : List fr_channel_data_t)
    (hpush : ch.fromWorker.aq.items.length < ch.fromWorker.aq.capacity)
    (hcons : ch.toWorker.aq.items = m :: rest)
    (hne : ¬ ch.fromWorker.num_outstanding = 0)
    (hskip : u64sub (ch.fromWorker.sequence + 1) ch.toWorker.ack ≤ 1000 ∧
      (u64sub cd.when m.when < SIGNAL_INTERVAL ∨
       u64sub cd.when ch.fromWorker.last_sent_signal < SIGNAL_INTERVAL)) :
    fr_channel_send_reply ch cd =
      { rcode := 0, reply := some m,
        ch := { ch with
          toWorker := { ch.toWorker with aq := { ch.toWorker.aq with items := rest } }
          fromWorker :=
            { replyPushedEnd ch cd with
              num_outstanding := ch.fromWorker.num_outstanding
              ack := m.sequence
              last_read_other := m.when } } } := by
  simp [fr_channel_send_reply, fr_atomic_queue_push, fr_channel_recv_request,
    fr_atomic_queue_pop, replyPushedEnd, hpush, hcons, hne, hskip.1, hskip.2]

theorem send_reply_eq_sig_cons (ch : fr_channel_t) (cd : fr_channel_data_t)
    (m : fr_channel_data_t) (rest : List fr_channel_data_t)
    (hpush : ch.fromWorker.aq.items.length < ch.fromWorker.aq.capacity)
    (hcons : ch.toWorker.aq.items = m :: rest)
    (hne : ¬ ch.fromWorker.num_outstanding = 0)
    (hnskip : ¬ (u64sub (ch.fromWorker.sequence + 1) ch.toWorker.ack ≤ 1000 ∧
      (u64sub cd.when m.when < SIGNAL_INTERVAL ∨
       u64sub cd.when ch.fromWorker.last_sent_signal < SIGNAL_INTERVAL)))
    (hctl : ch.fromWorker.aq_control.items.length < ch.fromWorker.aq_control.capacity) :
    fr_channel_send_reply ch cd =
      { rcode := 0, reply := some m,
        ch := { ch with
          toWorker := { ch.toWorker with aq := { ch.toWorker.aq with items := rest } }
          fromWorker :=
            { replyPushedEnd ch cd with
              num_outstanding := ch.fromWorker.num_outstanding
              ack := m.sequence
              last_read_other := m.when
              last_sent_signal := cd.when
              num_signals := ch.fromWorker.num_signals + 1
              aq_control := { ch.fromWorker.aq_control with
                items := ch.fromWorker.aq_control.items ++
                  [⟨.dataFromWorker, m.sequence⟩] } } } } := by
  simp [fr_channel_send_reply, fr_atomic_queue_push, fr_channel_recv_request,
    fr_atomic_queue_pop, fr_channel_data_ready, fr_control_message_send,
    replyPushedEnd, hpush, hcons, hne, hnskip, hctl]

/-- Claim C3: every worker-originated control record popped by
`fr_channel_service_aq` (DATA_DONE_WORKER yielding DATA_READY_RECEIVER,
WORKER_SLEEPING yielding NOOP): if the record's ack equals
`to_worker.sequence` the event is returned as-is; if it is smaller,
`num_resignals` is incremented and a fresh DATA_TO_WORKER signal is
emitted before the event is returned. -/
theorem C3_theorem (ch : fr_channel_t) (when : Nat) (cc : fr_channel_control_t)
    (rest : List fr_channel_control_t)
    (hpop : ch.fromWorker.aq_control.items = cc :: rest)
    (hsig : cc.signal = .dataDoneWorker ∨ cc.signal = .workerSleeping)
    (hctl : ch.toWorker.aq_control.items.length < ch.toWorker.aq_control.capacity) :
    (cc.ack = ch.toWorker.sequence →
      (fr_channel_service_aq ch when).1 =
        (if cc.signal = .dataDoneWorker then .dataReadyReceiver else .noop) ∧
      (fr_channel_service_aq ch when).2.toWorker = ch.toWorker ∧
      (fr_channel_service_aq ch when).2.fromWorker.aq_control.items = rest) ∧
    (cc.ack < ch.toWorker.sequence →
      (fr_channel_service_aq ch when).1 =
        (if cc.signal = .dataDoneWorker then .dataReadyReceiver else .noop) ∧
      (fr_channel_service_aq ch when).2.toWorker.num_resignals =
        ch.toWorker.num_resignals + 1 ∧
      sentSignals ch.toWorker (fr_channel_service_aq ch when).2.toWorker =
        [.dataToWorker] ∧
      (fr_channel_service_aq ch when).2.fromWorker.aq_control.items = rest) := by
  rcases hsig with h | h <;>
  · constructor
    · intro he
      simp [fr_channel_service_aq, fr_atomic_queue_pop, hpop, h, resignal_check, he]
    · intro hlt
      have hne : ¬ (cc.ack = ch.toWorker.sequence) := by omega
      simp [fr_channel_service_aq, fr_atomic_queue_pop, hpop, h, resignal_check, hne,
        fr_channel_data_ready, fr_control_message_send, fr_atomic_queue_push, hctl,
        sentSignals, List.drop_left]

/-- Witness for C3: scenario S5, a WORKER_SLEEPING record with ack 1
while `to_worker.sequence = 2` triggers a resignal. -/
theorem C3_witness :
    (fr_channel_service_aq c3ch 9).1 = .noop ∧
    (fr_channel_service_aq c3ch 9).2.toWorker.num_resignals =
      c3ch.toWorker.num_resignals + 1 ∧
    sentSignals c3ch.toWorker (fr_channel_service_aq c3ch 9).2.toWorker =
      [.dataToWorker] := by
  have h := (C3_theorem c3ch 9 c3cc [] rfl (Or.inr rfl) (by decide)).2 (by decide)
  exact ⟨h.1, h.2.1, h.2.2.1⟩

end FrChannel

namespace FrChannel

/-- Claim C1 is corrected by this counterexample: with one request
already outstanding and no reply pending, a successful send obtains no
reply and emits NO signal (returning 0), although the claim says every
case other than the two it lists must signal. -/
theorem C1_counterexample :
    c1ch.toWorker.num_outstanding = 1 ∧
    (fr_channel_send_request c1ch s1req).reply = none ∧
    (fr_channel_send_request c1ch s1req).rcode = 0 ∧
    sentSignals c1ch.toWorker (fr_channel_send_request c1ch s1req).ch.toWorker = [] ∧
    (fr_channel_send_request c1ch s1req).ch.toWorker.aq.items.length =
      c1ch.toWorker.aq.items.length + 1 := by decide

/-- Claim C1 (amended): for every `fr_channel_send_request` whose
data-queue push succeeds (with a non-full control queue): if
`num_outstanding` was 0 before the send, it returns no piggybacked
reply and always emits a DATA_TO_WORKER signal; if the receive_reply
attempt obtains a reply with `num_outstanding` still above 1
afterwards, OR obtains no reply at all, it returns without signaling;
it signals only when a reply was obtained and `num_outstanding`
afterwards is exactly 1. -/
theorem C1_theorem (ch : fr_channel_t) (cd : fr_channel_data_t)
    (hpush : ch.toWorker.aq.items.length < ch.toWorker.aq.capacity)
    (hctl : ch.toWorker.aq_control.items.length < ch.toWorker.aq_control.capacity) :
    (ch.toWorker.num_outstanding = 0 →
      (fr_channel_send_request ch cd).reply = none ∧
      (fr_channel_send_request ch cd).rcode = 0 ∧
      sentSignals ch.toWorker (fr_channel_send_request ch cd).ch.toWorker =
        [.dataToWorker]) ∧
    (0 < ch.toWorker.num_outstanding →
      ((fr_channel_send_request ch cd).reply = none ∨
          1 < (fr_channel_send_request ch cd).ch.toWorker.num_outstanding →
        (fr_channel_send_request ch cd).rcode = 0 ∧
        sentSignals ch.toWorker (fr_channel_send_request ch cd).ch.toWorker = []) ∧
      ((fr_channel_send_request ch cd).reply ≠ none →
        (fr_channel_send_request ch cd).ch.toWorker.num_outstanding = 1 →
        (fr_channel_send_request ch cd).rcode = 0 ∧
        sentSignals ch.toWorker (fr_channel_send_request ch cd).ch.toWorker =
          [.dataToWorker])) := by
  constructor
  · intro h0
    rw [send_request_eq_first ch cd hpush h0 hctl]
    refine ⟨rfl, rfl, ?_⟩
    simp [sentSignals, List.drop_left]
  · intro hpos
    cases hq : ch.fromWorker.aq.items with
    | nil =>
      rw [send_request_eq_empty ch cd hpush hpos hq]
      exact ⟨fun _ => ⟨rfl, sentSignals_of_eq _ _ rfl⟩, fun hne => absurd rfl hne⟩
    | cons m rest =>
      by_cases h1 : ch.toWorker.num_outstanding = 1
      · rw [send_request_eq_signal ch cd m rest hpush h1 hq hctl]
        refine ⟨fun hcond => ?_, fun _ _ => ⟨rfl, ?_⟩⟩
        · rcases hcond with h | h
          · exact absurd h (by simp)
          · simp at h
        · simp [sentSignals, List.drop_left]
      · have h2 : 1 < ch.toWorker.num_outstanding := by omega
        rw [send_request_eq_skip ch cd m rest hpush h2 hq]
        refine ⟨fun _ => ⟨rfl, sentSignals_of_eq _ _ rfl⟩, fun _ he => ?_⟩
        simp at he
        omega

/-- Witness for the amended C1: on a fresh channel the first send
returns no reply and signals DATA_TO_WORKER. -/
theorem C1_witness :
    (fr_channel_send_request base s1req).reply = none ∧
    (fr_channel_send_request base s1req).rcode = 0 ∧
    sentSignals base.toWorker (fr_channel_send_request base s1req).ch.toWorker =
      [.dataToWorker] :=
  (C1_theorem base s1req (by decide) (by decide)).1 rfl

/-- Claim C4: after a successful push in `fr_channel_send_reply` with
`num_outstanding` still positive, the DATA_FROM_WORKER signal is
emitted exactly when `worker.sequence - master.ack > 1000`, or when
both `when - last_read_other ≥ SIGNAL_INTERVAL` and
`when - last_sent_signal ≥ SIGNAL_INTERVAL` (all values taken at the
decision point, after the opportunistic request sweep). -/
theorem C4_theorem (ch : fr_channel_t) (cd : fr_channel_data_t)
    (hpush : ch.fromWorker.aq.items.length < ch.fromWorker.aq.capacity)
    (hctl : ch.fromWorker.aq_control.items.length < ch.fromWorker.aq_control.capacity)
    (hseq : ch.fromWorker.sequence + 1 < U64)
    (hack : ch.toWorker.ack ≤ ch.fromWorker.sequence + 1)
    (hwhen : cd.when < U64)
    (hlss : ch.fromWorker.last_sent_signal ≤ cd.when)
    (hlro : ch.fromWorker.last_read_other ≤ cd.when)
    (hqw : ∀ m ∈ ch.toWorker.aq.items, m.when ≤ cd.when) :
    0 < (fr_channel_send_reply ch cd).ch.fromWorker.num_outstanding →
    (sentSignals ch.fromWorker (fr_channel_send_reply ch cd).ch.fromWorker =
        [.dataFromWorker] ↔
      (1000 < ch.fromWorker.sequence + 1 - ch.toWorker.ack ∨
       (SIGNAL_INTERVAL ≤
          cd.when - (fr_channel_send_reply ch cd).ch.fromWorker.last_read_other ∧
        SIGNAL_INTERVAL ≤ cd.when - ch.fromWorker.last_sent_signal))) := by
  have e1 : u64sub (ch.fromWorker.sequence + 1) ch.toWorker.ack =
      ch.fromWorker.sequence + 1 - ch.toWorker.ack := u64sub_eq_sub _ _ hack hseq
  have e2 : u64sub cd.when ch.fromWorker.last_sent_signal =
      cd.when - ch.fromWorker.last_sent_signal := u64sub_eq_sub _ _ hlss hwhen
  intro hout
  cases hq : ch.toWorker.aq.items with
  | nil =>
    have e3 : u64sub cd.when ch.fromWorker.last_read_other =
        cd.when - ch.fromWorker.last_read_other := u64sub_eq_sub _ _ hlro hwhen
    by_cases hdone : ch.fromWorker.num_outstanding - 1 = 0
    · rw [send_reply_eq_done_empty ch cd hpush hq hdone hctl] at hout
      simp [replyPushedEnd, hdone] at hout
    · by_cases hskip : u64sub (ch.fromWorker.sequence + 1) ch.toWorker.ack ≤ 1000 ∧
        (u64sub cd.when ch.fromWorker.last_read_other < SIGNAL_INTERVAL ∨
         u64sub cd.when ch.fromWorker.last_sent_signal < SIGNAL_INTERVAL)
      · rw [send_reply_eq_skip_empty ch cd hpush hq hdone hskip]
        constructor
        · intro hL
          simp [sentSignals, replyPushedEnd, List.drop_length] at hL
        · intro hR
          exfalso
          rw [e1, e2, e3] at hskip
          simp only [replyPushedEnd] at hR
          omega
      · rw [send_reply_eq_sig_empty ch cd hpush hq hdone hskip hctl]
        constructor
        · intro _
          rw [e1, e2, e3] at hskip
          simp only [replyPushedEnd]
          omega
        · intro _
          simp [sentSignals, List.drop_left]
  | cons m rest =>
    have hmw : m.when ≤ cd.when := hqw m (by rw [hq]; exact List.mem_cons_self _ _)
    have e3 : u64sub cd.when m.when = cd.when - m.when := u64sub_eq_sub _ _ hmw hwhen
    by_cases hdone : ch.fromWorker.num_outstanding = 0
    · rw [send_reply_eq_done_cons ch cd m rest hpush hq hdone hctl] at hout
      simp [replyPushedEnd, hdone] at hout
    · by_cases hskip : u64sub (ch.fromWorker.sequence + 1) ch.toWorker.ack ≤ 1000 ∧
        (u64sub cd.when m.when < SIGNAL_INTERVAL ∨
         u64sub cd.when ch.fromWorker.last_sent_signal < SIGNAL_INTERVAL)
      · rw [send_reply_eq_skip_cons ch cd m rest hpush hq hdone hskip]
        constructor
        · intro hL
          simp [sentSignals, replyPushedEnd, List.drop_length] at hL
        · intro hR
          exfalso
          rw [e1, e2, e3] at hskip
          simp only [replyPushedEnd] at hR
          omega
      · rw [send_reply_eq_sig_cons ch cd m rest hpush hq hdone hskip hctl]
        constructor
        · intro _
          rw [e1, e2, e3] at hskip
          simp only [replyPushedEnd]
          omega
        · intro _
          simp [sentSignals, List.drop_left]

/-- Witness for C4: a worker 2001 messages ahead of the master's ack
emits the DATA_FROM_WORKER signal. -/
theorem C4_witness :
    0 < (fr_channel_send_reply c4ch c4cd).ch.fromWorker.num_outstanding ∧
    sentSignals c4ch.fromWorker (fr_channel_send_reply c4ch c4cd).ch.fromWorker =
      [.dataFromWorker] :=
  ⟨by decide,
   (C4_theorem c4ch c4cd (by decide) (by decide) (by decide) (by decide) (by decide)
      (by decide) (by decide) (by simp [c4ch, base, fr_channel_create])
      (by decide)).mpr (Or.inl (by decide))⟩

set_option maxRecDepth 100000 in
/-- Claim C5 is corrected by this counterexample: when the push fails
with a reply pending, the queue-full sweep pops the reply and
DECREMENTS `num_outstanding` (2 to 1), although the claim says
`num_outstanding` is unchanged. -/
theorem C5_counterexample :
    c5ch.toWorker.num_outstanding = 2 ∧
    (fr_channel_send_request c5ch s1req).rcode = -1 ∧
    (fr_channel_send_request c5ch s1req).reply = some c5rep ∧
    (fr_channel_send_request c5ch s1req).ch.toWorker.num_outstanding = 1 := by decide

/-- Claim C5 (amended): when the data-queue push of
`fr_channel_send_request` fails, the function returns -1 together with
the result of exactly one `fr_channel_recv_reply` attempt; the sender's
`sequence`, `message_interval`, `last_write` and data queue are
unchanged (the failed message is never considered sent), and
`num_outstanding` is unchanged when the attempt obtains no reply but is
decremented by one by the receive when a reply is obtained. -/
theorem C5_theorem (ch : fr_channel_t) (cd : fr_channel_data_t)
    (hfull : ¬ ch.toWorker.aq.items.length < ch.toWorker.aq.capacity) :
    (fr_channel_send_request ch cd).rcode = -1 ∧
    (fr_channel_send_request ch cd).reply = (fr_channel_recv_reply ch).1 ∧
    (fr_channel_send_request ch cd).ch = (fr_channel_recv_reply ch).2 ∧
    (fr_channel_send_request ch cd).ch.toWorker.sequence = ch.toWorker.sequence ∧
    (fr_channel_send_request ch cd).ch.toWorker.message_interval =
      ch.toWorker.message_interval ∧
    (fr_channel_send_request ch cd).ch.toWorker.last_write = ch.toWorker.last_write ∧
    (fr_channel_send_request ch cd).ch.toWorker.aq.items = ch.toWorker.aq.items ∧
    ((fr_channel_send_request ch cd).reply = none →
      (fr_channel_send_request ch cd).ch.toWorker.num_outstanding =
        ch.toWorker.num_outstanding) ∧
    ((fr_channel_send_request ch cd).reply ≠ none →
      (fr_channel_send_request ch cd).ch.toWorker.num_outstanding =
        ch.toWorker.num_outstanding - 1) := by
  rw [send_request_eq_full ch cd hfull]
  cases hq : ch.fromWorker.aq.items with
  | nil =>
    rw [recv_reply_of_empty ch hq]
    exact ⟨rfl, rfl, rfl, rfl, rfl, rfl, rfl, fun _ => rfl, fun hne => absurd rfl hne⟩
  | cons m rest =>
    rw [recv_reply_of_cons ch m rest hq]
    refine ⟨rfl, rfl, rfl, rfl, rfl, rfl, rfl, fun he => ?_, fun _ => rfl⟩
    simp at he

set_option maxRecDepth 100000 in
/-- Witness for the amended C5 on the full-queue state `c5ch`. -/
theorem C5_witness :
    (fr_channel_send_request c5ch s1req).rcode = -1 ∧
    (fr_channel_send_request c5ch s1req).reply = (fr_channel_recv_reply c5ch).1 ∧
    (fr_channel_send_request c5ch s1req).ch.toWorker.sequence =
      c5ch.toWorker.sequence :=
  ⟨(C5_theorem c5ch s1req (by decide)).1,
   (C5_theorem c5ch s1req (by decide)).2.1,
   (C5_theorem c5ch s1req (by decide)).2.2.2.1⟩

/-- Claim C6 is corrected by this counterexample: on a channel with
`active = false`, `fr_channel_send_request` succeeds (returns 0) and
pushes the stamped message; no error is returned and the state changes
exactly as on an active channel. -/
theorem C6_counterexample :
    c6ch.active = false ∧
    (fr_channel_send_request c6ch s1req).rcode = 0 ∧
    (fr_channel_send_request c6ch s1req).ch.toWorker.aq.items =
      c6ch.toWorker.aq.items ++ [{ s1req with sequence := 1, ack := 0 }] ∧
    (fr_channel_send_request c6ch s1req).ch.toWorker.sequence = 1 := by decide

/-- Claim C6 (amended): neither send operation consults the `active`
flag: on a channel with `active = false` (and room in the queues) the
message is stamped and pushed, the sender's sequence advances, the call
returns success, and `active` simply stays false. -/
theorem C6_theorem (ch : fr_channel_t) (cd : fr_channel_data_t)
    (hA : ch.active = false)
    (hpushR : ch.toWorker.aq.items.length < ch.toWorker.aq.capacity)
    (houtR : 0 ≤ ch.toWorker.num_outstanding)
    (hctlR : ch.toWorker.aq_control.items.length < ch.toWorker.aq_control.capacity)
    (hpushW : ch.fromWorker.aq.items.length < ch.fromWorker.aq.capacity)
    (hctlW : ch.fromWorker.aq_control.items.length < ch.fromWorker.aq_control.capacity) :
    (fr_channel_send_request ch cd).rcode = 0 ∧
    (fr_channel_send_request ch cd).ch.toWorker.aq.items =
      ch.toWorker.aq.items ++
        [{ cd with sequence := ch.toWorker.sequence + 1, ack := ch.toWorker.ack }] ∧
    (fr_channel_send_request ch cd).ch.toWorker.sequence = ch.toWorker.sequence + 1 ∧
    (fr_channel_send_request ch cd).ch.active = false ∧
    (fr_channel_send_reply ch cd).rcode = 0 ∧
    (fr_channel_send_reply ch cd).ch.fromWorker.aq.items =
      ch.fromWorker.aq.items ++
        [{ cd with sequence := ch.fromWorker.sequence + 1, ack := ch.fromWorker.ack }] ∧
    (fr_channel_send_reply ch cd).ch.fromWorker.sequence = ch.fromWorker.sequence + 1 ∧
    (fr_channel_send_reply ch cd).ch.active = false := by
  have hreq : (fr_channel_send_request ch cd).rcode = 0 ∧
      (fr_channel_send_request ch cd).ch.toWorker.aq.items =
        ch.toWorker.aq.items ++
          [{ cd with sequence := ch.toWorker.sequence + 1, ack := ch.toWorker.ack }] ∧
      (fr_channel_send_request ch cd).ch.toWorker.sequence = ch.toWorker.sequence + 1 ∧
      (fr_channel_send_request ch cd).ch.active = false := by
    by_cases h0 : ch.toWorker.num_outstanding = 0
    · rw [send_request_eq_first ch cd hpushR h0 hctlR]
      exact ⟨rfl, by simp [requestPushedEnd], by simp [requestPushedEnd], by simp [hA]⟩
    · have hpos : 0 < ch.toWorker.num_outstanding := by omega
      cases hq : ch.fromWorker.aq.items with
      | nil =>
        rw [send_request_eq_empty ch cd hpushR hpos hq]
        exact ⟨rfl, by simp [requestPushedEnd], by simp [requestPushedEnd], by simp [hA]⟩
      | cons m rest =>
        by_cases h1 : ch.toWorker.num_outstanding = 1
        · rw [send_request_eq_signal ch cd m rest hpushR h1 hq hctlR]
          exact ⟨rfl, by simp [requestPushedEnd], by simp [requestPushedEnd], by simp [hA]⟩
        · have h2 : 1 < ch.toWorker.num_outstanding := by omega
          rw [send_request_eq_skip ch cd m rest hpushR h2 hq]
          exact ⟨rfl, by simp [requestPushedEnd], by simp [requestPushedEnd], by simp [hA]⟩
  have hrep : (fr_channel_send_reply ch cd).rcode = 0 ∧
      (fr_channel_send_reply ch cd).ch.fromWorker.aq.items =
        ch.fromWorker.aq.items ++
          [{ cd with sequence := ch.fromWorker.sequence + 1, ack := ch.fromWorker.ack }] ∧
      (fr_channel_send_reply ch cd).ch.fromWorker.sequence =
        ch.fromWorker.sequence + 1 ∧
      (fr_channel_send_reply ch cd).ch.active = false := by
    cases hq : ch.toWorker.aq.items with
    | nil =>
      by_cases hdone : ch.fromWorker.num_outstanding - 1 = 0
      · rw [send_reply_eq_done_empty ch cd hpushW hq hdone hctlW]
        exact ⟨rfl, by simp [replyPushedEnd], by simp [replyPushedEnd], by simp [hA]⟩
      · by_cases hskip : u64sub (ch.fromWorker.sequence + 1) ch.toWorker.ack ≤ 1000 ∧
          (u64sub cd.when ch.fromWorker.last_read_other < SIGNAL_INTERVAL ∨
           u64sub cd.when ch.fromWorker.last_sent_signal < SIGNAL_INTERVAL)
        · rw [send_reply_eq_skip_empty ch cd hpushW hq hdone hskip]
          exact ⟨rfl, by simp [replyPushedEnd], by simp [replyPushedEnd], by simp [hA]⟩
        · rw [send_reply_eq_sig_empty ch cd hpushW hq hdone hskip hctlW]
          exact ⟨rfl, by simp [replyPushedEnd], by simp [replyPushedEnd], by simp [hA]⟩
    | cons m rest =>
      by_cases hdone : ch.fromWorker.num_outstanding = 0
      · rw [send_reply_eq_done_cons ch cd m rest hpushW hq hdone hctlW]
        exact ⟨rfl, by simp [replyPushedEnd], by simp [replyPushedEnd], by simp [hA]⟩
      · by_cases hskip : u64sub (ch.fromWorker.sequence + 1) ch.toWorker.ack ≤ 1000 ∧
          (u64sub cd.when m.when < SIGNAL_INTERVAL ∨
           u64sub cd.when ch.fromWorker.last_sent_signal < SIGNAL_INTERVAL)
        · rw [send_reply_eq_skip_cons ch cd m rest hpushW hq hdone hskip]
          exact ⟨rfl, by simp [replyPushedEnd], by simp [replyPushedEnd], by simp [hA]⟩
        · rw [send_reply_eq_sig_cons ch cd m rest hpushW hq hdone hskip hctlW]
          exact ⟨rfl, by simp [replyPushedEnd], by simp [replyPushedEnd], by simp [hA]⟩
  exact ⟨hreq.1, hreq.2.1, hreq.2.2.1, hreq.2.2.2, hrep.1, hrep.2.1, hrep.2.2.1, hrep.2.2.2⟩

/-- Witness for the amended C6 on the inactive channel `c6ch`. -/
theorem C6_witness :
    (fr_channel_send_request c6ch s1rep).rcode = 0 ∧
    (fr_channel_send_reply c6ch s1rep).rcode = 0 ∧
    (fr_channel_send_reply c6ch s1rep).ch.active = false :=
  ⟨(C6_theorem c6ch s1rep rfl (by decide) (by decide) (by decide) (by decide) (by decide)).1,
   (C6_theorem c6ch s1rep rfl (by decide) (by decide) (by decide) (by decide) (by decide)).2.2.2.2.1,
   (C6_theorem c6ch s1rep rfl (by decide) (by decide) (by decide) (by decide) (by decide)).2.2.2.2.2.2.2⟩

end FrChannel
